import Mathlib

/-!
# Tenant-configuration core: shallow embedding and verification

This file embeds the tenant-configuration core of the `customer-admin`
repository (the `SlackChannelService` CRUD operations, the id validation,
the document access helpers, and the generic `deepMerge` primitive of the
in-memory `ConfigService`) as executable Lean definitions, and proves the
behavioral properties stated in the specification.

The embedding mirrors the TypeScript source:
* `TenantConfig`, `TenantChannelConfig`, `OpenClawConfig` mirror the
  interfaces in `ConfigService.ts`; index-signature keys (`[key: string]:
  unknown`) are modelled by `extra` association lists over a JSON-like
  value type `JVal`.
* `validateTenantId`, `getSlackChannels`, `setSlackChannels`,
  `channelToTenant`, `tenantToChannel`, `listTenants`, `getTenant`,
  `addTenant`, `updateTenant`, `removeTenant`, `pauseTenant`,
  `activateTenant` mirror `SlackChannelService.ts`.  The Effect-TS
  orchestration (read → compute → write → gateway restart) is modelled by
  explicit state passing over a `SystemState` (stored document + count of
  gateway restart calls), with collaborator failures injected through a
  `Faults` record.
* `deepMerge` mirrors the `deepMerge` helper of `ConfigService.ts`.
-/

/-- A JSON-like value, used for the opaque (`[key: string]: unknown`)
parts of the configuration document and for the `deepMerge` primitive. -/
inductive JVal where
  | null
  | bool (b : Bool)
  | num (n : Int)
  | str (s : String)
  | arr (elems : List JVal)
  | obj (fields : List (String × JVal))
deriving Repr

/-- `interface TenantToolPolicy { readonly deny: ReadonlyArray<string> }` -/
structure TenantToolPolicy where
  deny : List String
deriving Repr, DecidableEq

/-- The `groupPolicy` enum `"allowlist" | "open"`. -/
inductive GroupPolicy where
  | allowlist
  | «open»
deriving Repr, DecidableEq

/-- `interface TenantConfig` of `ConfigService.ts`: the fully-defaulted
record materialized to callers. -/
structure TenantConfig where
  id : String
  name : String
  channelName : String
  systemPrompt : String
  tools : TenantToolPolicy
  users : List String
  enabled : Bool
  paid : Bool
  groupPolicy : GroupPolicy
deriving Repr, DecidableEq

/-- `interface TenantChannelConfig` of `ConfigService.ts`: the stored,
possibly partial record (every field optional, plus an index signature
modelled by `extra`). -/
structure TenantChannelConfig where
  name : Option String := none
  systemPrompt : Option String := none
  tools : Option TenantToolPolicy := none
  users : Option (List String) := none
  enabled : Option Bool := none
  paid : Option Bool := none
  groupPolicy : Option GroupPolicy := none
  extra : List (String × JVal) := []
deriving Repr

/-- The `channels.slack` section of the document:
`{ channels?: Record<string, TenantChannelConfig>, [key: string]: unknown }`. -/
structure SlackConfig where
  channels : Option (List (String × TenantChannelConfig)) := none
  extra : List (String × JVal) := []
deriving Repr

/-- The `channels` section of the document:
`{ slack?: SlackConfig, [key: string]: unknown }`. -/
structure ChannelsConfig where
  slack : Option SlackConfig := none
  extra : List (String × JVal) := []
deriving Repr

/-- `interface OpenClawConfig`: the full shared document.  Top-level keys
other than `channels` are opaque pass-through data (`extra`). -/
structure OpenClawConfig where
  channels : ChannelsConfig := {}
  extra : List (String × JVal) := []
deriving Repr

/-- `Partial<TenantConfig>`: the caller-supplied partial record for
`addTenant`/`updateTenant` (every field of `TenantConfig` optional). -/
structure PartialTenantConfig where
  id : Option String := none
  name : Option String := none
  channelName : Option String := none
  systemPrompt : Option String := none
  tools : Option TenantToolPolicy := none
  users : Option (List String) := none
  enabled : Option Bool := none
  paid : Option Bool := none
  groupPolicy : Option GroupPolicy := none
deriving Repr

/-- The closed set of error kinds of `errors/index.ts`
(`ConfigReadError`, `ConfigWriteError`, `TenantNotFoundError`,
`TenantAlreadyExistsError`, `ValidationError`, `GatewayError`). -/
inductive ServiceError where
  | configRead (msg : String)
  | configWrite (msg : String)
  | tenantNotFound (tenantId : String)
  | tenantAlreadyExists (tenantId : String)
  | validation (field : String) (msg : String)
  | gateway (msg : String)
deriving Repr, DecidableEq

/-- `export const DEFAULT_TOOL_DENY = ["exec", "write", "edit", "gateway", "cron", "message"]` -/
def DEFAULT_TOOL_DENY : List String :=
  ["exec", "write", "edit", "gateway", "cron", "message"]

/-- JavaScript `String.prototype.trim`: drop leading and trailing
whitespace (structural implementation, so that it evaluates in the
kernel). -/
def jsTrim (s : String) : String :=
  String.mk (((s.data.dropWhile Char.isWhitespace).reverse.dropWhile Char.isWhitespace).reverse)

/-- A character matched by the character class `[\/\\\.]` of the
path-traversal regex in `validateTenantId`. -/
def isTraversalChar (c : Char) : Bool :=
  c == '/' || c == '\\' || c == '.'

/-- `hasPair cs` holds when two consecutive characters of `cs` are both in
the traversal class — exactly when the regex `[\/\\\.]{2,}|\.\.` matches
(the `\.\.` alternative is subsumed by the class, and any run of length
two or more contains a run of length two). -/
def hasPair : List Char → Bool
  | c1 :: c2 :: rest => (isTraversalChar c1 && isTraversalChar c2) || hasPair (c2 :: rest)
  | _ => false

/-- The test `/[\/\\\.]{2,}|\.\./.test(id)` of `validateTenantId`. -/
def hasTraversalPair (s : String) : Bool :=
  hasPair s.data

/-- `validateTenantId` of `SlackChannelService.ts`. -/
def validateTenantId (id : String) : Except ServiceError String :=
  if id = "" ∨ (jsTrim id).length = 0 then
    .error (.validation "id" "Tenant ID cannot be empty")
  else if hasTraversalPair id then
    .error (.validation "id" "Tenant ID contains path traversal characters")
  else if id.length > 255 then
    .error (.validation "id" "Tenant ID too long (max 255)")
  else
    .ok (jsTrim id)

/-- The tenant sub-map of the document:
`(config.channels?.slack?.channels) ?? {}`. -/
def getSlackChannels (config : OpenClawConfig) : List (String × TenantChannelConfig) :=
  (config.channels.slack.bind (fun s => s.channels)).getD []

/-- `setSlackChannels` of `SlackChannelService.ts`: rebuild the document
with the tenant sub-map replaced, spreading every ancestor and leaving all
unrelated keys untouched. -/
def setSlackChannels (config : OpenClawConfig)
    (channels : List (String × TenantChannelConfig)) : OpenClawConfig :=
  { config with
    channels :=
      { config.channels with
        slack := some { (config.channels.slack.getD {}) with channels := some channels } } }

/-- JavaScript property assignment `{...m, [k]: v}` on a string-keyed
object, as an insertion-ordered association list: an existing key keeps
its position and gets the new value, a new key is appended. -/
def setEntry {β : Type} (m : List (String × β)) (k : String) (v : β) :
    List (String × β) :=
  if (m.lookup k).isSome then
    m.map (fun p => if p.1 = k then (k, v) else p)
  else
    m ++ [(k, v)]

/-- The rest-destructuring deletion `const { [k]: _removed, ...remaining } = m`. -/
def removeEntry {β : Type} (m : List (String × β)) (k : String) :
    List (String × β) :=
  m.filter (fun p => p.1 != k)

/-- `channelToTenant` of `SlackChannelService.ts`: derive the
fully-defaulted record from a stored channel entry. -/
def channelToTenant (id : String) (ch : TenantChannelConfig) : TenantConfig :=
  { id := id
    name := ch.name.getD id
    channelName := "#client-" ++ id
    systemPrompt := ch.systemPrompt.getD ""
    tools := ch.tools.getD { deny := DEFAULT_TOOL_DENY }
    users := ch.users.getD []
    enabled := ch.enabled != some false
    paid := ch.paid == some true
    groupPolicy := if ch.groupPolicy == some GroupPolicy.«open» then GroupPolicy.«open»
      else GroupPolicy.allowlist }

/-- `tenantToChannel` of `SlackChannelService.ts`: build the stored
channel entry from a caller-supplied partial record. -/
def tenantToChannel (tenant : PartialTenantConfig) : TenantChannelConfig :=
  { name := tenant.name
    systemPrompt := tenant.systemPrompt
    tools := some (tenant.tools.getD { deny := DEFAULT_TOOL_DENY })
    users := some (tenant.users.getD [])
    enabled := some (tenant.enabled.getD true)
    paid := some (tenant.paid.getD false)
    groupPolicy := some (tenant.groupPolicy.getD GroupPolicy.allowlist)
    extra := [] }

/-- State of the two collaborators: the config store's current document
and the number of `gateway.restart()` invocations so far. -/
structure SystemState where
  doc : OpenClawConfig
  restarts : Nat
deriving Repr

/-- Failure injection for the collaborators: when a field is `some msg`,
the corresponding collaborator call fails with that message. -/
structure Faults where
  readErr : Option String := none
  writeErr : Option String := none
  restartErr : Option String := none
deriving Repr

/-- All collaborators healthy. -/
def noFaults : Faults := {}

/-- `config.read()`. -/
def readConfig (f : Faults) (s : SystemState) : Except ServiceError OpenClawConfig :=
  match f.readErr with
  | some m => .error (.configRead m)
  | none => .ok s.doc

/-- `config.write(doc)`: on success the store holds `doc`; on failure the
store is unchanged. -/
def writeConfig (f : Faults) (doc : OpenClawConfig) (s : SystemState) :
    Except ServiceError Unit × SystemState :=
  match f.writeErr with
  | some m => (.error (.configWrite m), s)
  | none => (.ok (), { s with doc := doc })

/-- `gateway.restart()`: the invocation is recorded; it fails when
`restartErr` is set. -/
def callRestart (f : Faults) (s : SystemState) : Except ServiceError Unit × SystemState :=
  let s1 : SystemState := { s with restarts := s.restarts + 1 }
  match f.restartErr with
  | some m => (.error (.gateway m), s1)
  | none => (.ok (), s1)

/-- `listTenants` of `SlackChannelService.ts`. -/
def listTenants (f : Faults) (s : SystemState) :
    Except ServiceError (List TenantConfig) × SystemState :=
  match readConfig f s with
  | .error e => (.error e, s)
  | .ok currentConfig =>
    (.ok ((getSlackChannels currentConfig).map (fun p => channelToTenant p.1 p.2)), s)

/-- `getTenant` of `SlackChannelService.ts`. -/
def getTenant (f : Faults) (tenantId : String) (s : SystemState) :
    Except ServiceError TenantConfig × SystemState :=
  match validateTenantId tenantId with
  | .error e => (.error e, s)
  | .ok validId =>
    match readConfig f s with
    | .error e => (.error e, s)
    | .ok currentConfig =>
      match (getSlackChannels currentConfig).lookup validId with
      | none => (.error (.tenantNotFound validId), s)
      | some ch => (.ok (channelToTenant validId ch), s)

/-- `addTenant` of `SlackChannelService.ts`. -/
def addTenant (f : Faults) (tenantId : String) (data : PartialTenantConfig)
    (s : SystemState) : Except ServiceError TenantConfig × SystemState :=
  match validateTenantId tenantId with
  | .error e => (.error e, s)
  | .ok validId =>
    match readConfig f s with
    | .error e => (.error e, s)
    | .ok currentConfig =>
      let channels := getSlackChannels currentConfig
      if (channels.lookup validId).isSome then
        (.error (.tenantAlreadyExists validId), s)
      else
        let newChannel := tenantToChannel { data with enabled := some (data.enabled.getD true) }
        let updated := setSlackChannels currentConfig (setEntry channels validId newChannel)
        match writeConfig f updated s with
        | (.error e, s1) => (.error e, s1)
        | (.ok _, s1) =>
          match callRestart f s1 with
          | (.error e, s2) => (.error e, s2)
          | (.ok _, s2) => (.ok (channelToTenant validId newChannel), s2)

/-- The merged stored record computed by `updateTenant`: spread of the
existing entry, each field overridden only when present in `data`. -/
def mergeChannel (existing : TenantChannelConfig) (data : PartialTenantConfig) :
    TenantChannelConfig :=
  { existing with
    name := data.name <|> existing.name
    systemPrompt := data.systemPrompt <|> existing.systemPrompt
    tools := data.tools <|> existing.tools
    users := data.users <|> existing.users
    enabled := data.enabled <|> existing.enabled
    paid := data.paid <|> existing.paid
    groupPolicy := data.groupPolicy <|> existing.groupPolicy }

/-- `updateTenant` of `SlackChannelService.ts`. -/
def updateTenant (f : Faults) (tenantId : String) (data : PartialTenantConfig)
    (s : SystemState) : Except ServiceError TenantConfig × SystemState :=
  match validateTenantId tenantId with
  | .error e => (.error e, s)
  | .ok validId =>
    match readConfig f s with
    | .error e => (.error e, s)
    | .ok currentConfig =>
      let channels := getSlackChannels currentConfig
      match channels.lookup validId with
      | none => (.error (.tenantNotFound validId), s)
      | some existing =>
        let merged := mergeChannel existing data
        let updated := setSlackChannels currentConfig (setEntry channels validId merged)
        match writeConfig f updated s with
        | (.error e, s1) => (.error e, s1)
        | (.ok _, s1) =>
          match callRestart f s1 with
          | (.error e, s2) => (.error e, s2)
          | (.ok _, s2) => (.ok (channelToTenant validId merged), s2)

/-- `removeTenant` of `SlackChannelService.ts`. -/
def removeTenant (f : Faults) (tenantId : String) (s : SystemState) :
    Except ServiceError Unit × SystemState :=
  match validateTenantId tenantId with
  | .error e => (.error e, s)
  | .ok validId =>
    match readConfig f s with
    | .error e => (.error e, s)
    | .ok currentConfig =>
      let channels := getSlackChannels currentConfig
      match channels.lookup validId with
      | none => (.error (.tenantNotFound validId), s)
      | some _ =>
        let updated := setSlackChannels currentConfig (removeEntry channels validId)
        match writeConfig f updated s with
        | (.error e, s1) => (.error e, s1)
        | (.ok _, s1) =>
          match callRestart f s1 with
          | (.error e, s2) => (.error e, s2)
          | (.ok _, s2) => (.ok (), s2)

/-- `pauseTenant` of `SlackChannelService.ts`. -/
def pauseTenant (f : Faults) (tenantId : String) (s : SystemState) :
    Except ServiceError TenantConfig × SystemState :=
  updateTenant f tenantId { enabled := some false } s

/-- `activateTenant` of `SlackChannelService.ts`. -/
def activateTenant (f : Faults) (tenantId : String) (s : SystemState) :
    Except ServiceError TenantConfig × SystemState :=
  updateTenant f tenantId { enabled := some true } s

/-- The loop of `deepMerge` in `ConfigService.ts`: `result` starts as
`{...target}` and, for each `key` of `source`, skips the three reserved
prototype-pollution names, recurses when both sides hold a plain
(non-array) object, and otherwise assigns the source value.  Lookups of
the target value always consult the original `target`. -/
def deepMergeGo (target result : List (String × JVal)) :
    List (String × JVal) → List (String × JVal)
  | [] => result
  | (k, sv) :: rest =>
    if k == "__proto__" || k == "constructor" || k == "prototype" then
      deepMergeGo target result rest
    else
      match sv, target.lookup k with
      | JVal.obj sfields, some (JVal.obj tfields) =>
        deepMergeGo target (setEntry result k (JVal.obj (deepMergeGo tfields tfields sfields))) rest
      | _, _ => deepMergeGo target (setEntry result k sv) rest
termination_by l => sizeOf l
decreasing_by
  all_goals simp_wf
  all_goals omega

/-- `deepMerge` of `ConfigService.ts`. -/
def deepMerge (target source : List (String × JVal)) : List (String × JVal) :=
  deepMergeGo target target source

/-! ## Association-list lemmas -/

theorem lookup_cons_ite {β : Type} (a k : String) (b : β) (tl : List (String × β)) :
    ((a, b) :: tl).lookup k = if k = a then some b else tl.lookup k := by
  rw [List.lookup_cons]
  by_cases h : k = a
  · simp [h]
  · simp [h, beq_false_of_ne h]

theorem lookup_map_replace_self {β : Type} (k : String) (v : β) :
    ∀ m : List (String × β),
      (m.map (fun p => if p.1 = k then (k, v) else p)).lookup k
        = (m.lookup k).map (fun _ => v) := by
  intro m
  induction m with
  | nil => simp
  | cons hd tl ih =>
    obtain ⟨a, b⟩ := hd
    by_cases h : a = k
    · subst h
      simp [lookup_cons_ite]
    · have h2 : ¬k = a := fun hh => h hh.symm
      simp [lookup_cons_ite, h, h2, ih]

theorem lookup_map_replace_ne {β : Type} (k k' : String) (v : β) (h : k' ≠ k) :
    ∀ m : List (String × β),
      (m.map (fun p => if p.1 = k then (k, v) else p)).lookup k' = m.lookup k' := by
  intro m
  induction m with
  | nil => simp
  | cons hd tl ih =>
    obtain ⟨a, b⟩ := hd
    by_cases ha : a = k
    · subst ha
      simp [lookup_cons_ite, h, ih]
    · simp [lookup_cons_ite, ha, ih]

theorem lookup_setEntry_self {β : Type} (m : List (String × β)) (k : String) (v : β) :
    (setEntry m k v).lookup k = some v := by
  unfold setEntry
  by_cases h : (m.lookup k).isSome
  · rw [if_pos h, lookup_map_replace_self]
    obtain ⟨b, hb⟩ := Option.isSome_iff_exists.mp h
    simp [hb]
  · rw [if_neg h, List.lookup_append]
    have : m.lookup k = none := Option.not_isSome_iff_eq_none.mp h
    simp [this]

theorem lookup_setEntry_ne {β : Type} (m : List (String × β)) (k k' : String) (v : β)
    (h : k' ≠ k) : (setEntry m k v).lookup k' = m.lookup k' := by
  unfold setEntry
  by_cases hs : (m.lookup k).isSome
  · rw [if_pos hs, lookup_map_replace_ne k k' v h]
  · rw [if_neg hs, List.lookup_append]
    simp [lookup_cons_ite, h]

theorem removeEntry_map_replace {β : Type} (k : String) (v : β) :
    ∀ m : List (String × β),
      removeEntry (m.map (fun p => if p.1 = k then (k, v) else p)) k = removeEntry m k := by
  intro m
  induction m with
  | nil => rfl
  | cons hd tl ih =>
    obtain ⟨a, b⟩ := hd
    unfold removeEntry at ih ⊢
    by_cases h : a = k
    · subst h
      simpa [List.filter_cons] using ih
    · simpa [List.filter_cons, h] using ih

theorem removeEntry_setEntry {β : Type} (m : List (String × β)) (k : String) (v : β) :
    removeEntry (setEntry m k v) k = removeEntry m k := by
  unfold setEntry
  by_cases h : (m.lookup k).isSome
  · rw [if_pos h]
    exact removeEntry_map_replace k v m
  · rw [if_neg h]
    unfold removeEntry
    rw [List.filter_append]
    simp

theorem removeEntry_removeEntry {β : Type} (m : List (String × β)) (k : String) :
    removeEntry (removeEntry m k) k = removeEntry m k := by
  unfold removeEntry
  rw [List.filter_filter]
  simp

/-! ## Document lemmas -/

theorem getSlackChannels_setSlackChannels (c : OpenClawConfig)
    (m : List (String × TenantChannelConfig)) :
    getSlackChannels (setSlackChannels c m) = m := rfl

/-- The opaque keys stored alongside the tenant map inside the
`channels.slack` section. -/
def slackExtra (c : OpenClawConfig) : List (String × JVal) :=
  (c.channels.slack.getD {}).extra

theorem slackExtra_setSlackChannels (c : OpenClawConfig)
    (m : List (String × TenantChannelConfig)) :
    slackExtra (setSlackChannels c m) = slackExtra c := by
  unfold slackExtra setSlackChannels
  cases c.channels.slack <;> rfl

/-- Frame property of a mutation addressed at tenant `x`: every opaque key
of the document (top level, `channels` level, `channels.slack` level) is
unchanged, and the tenant sub-map restricted away from `x` is unchanged. -/
def preservesOutside (d d' : OpenClawConfig) (x : String) : Prop :=
  d'.extra = d.extra ∧
  d'.channels.extra = d.channels.extra ∧
  slackExtra d' = slackExtra d ∧
  removeEntry (getSlackChannels d') x = removeEntry (getSlackChannels d) x

/-- The stored channel entry `addTenant` creates:
`tenantToChannel({...data, enabled: data.enabled ?? true})`. -/
def newChannelFor (data : PartialTenantConfig) : TenantChannelConfig :=
  tenantToChannel { data with enabled := some (data.enabled.getD true) }

/-! ## Run lemmas: how each operation behaves on each path -/

theorem addTenant_ok_run (f : Faults) (id : String) (data : PartialTenantConfig)
    (s : SystemState) (v : String)
    (hv : validateTenantId id = .ok v) (hr : f.readErr = none) (hw : f.writeErr = none)
    (hg : f.restartErr = none) (habs : (getSlackChannels s.doc).lookup v = none) :
    addTenant f id data s =
      (.ok (channelToTenant v (newChannelFor data)),
       { doc := setSlackChannels s.doc (setEntry (getSlackChannels s.doc) v (newChannelFor data)),
         restarts := s.restarts + 1 }) := by
  simp [addTenant, readConfig, writeConfig, callRestart, newChannelFor, hv, hr, hw, hg, habs]

theorem updateTenant_ok_run (f : Faults) (id : String) (data : PartialTenantConfig)
    (s : SystemState) (v : String) (existing : TenantChannelConfig)
    (hv : validateTenantId id = .ok v) (hr : f.readErr = none) (hw : f.writeErr = none)
    (hg : f.restartErr = none)
    (hex : (getSlackChannels s.doc).lookup v = some existing) :
    updateTenant f id data s =
      (.ok (channelToTenant v (mergeChannel existing data)),
       { doc := setSlackChannels s.doc
           (setEntry (getSlackChannels s.doc) v (mergeChannel existing data)),
         restarts := s.restarts + 1 }) := by
  simp [updateTenant, readConfig, writeConfig, callRestart, hv, hr, hw, hg, hex]

theorem removeTenant_ok_run (f : Faults) (id : String)
    (s : SystemState) (v : String) (existing : TenantChannelConfig)
    (hv : validateTenantId id = .ok v) (hr : f.readErr = none) (hw : f.writeErr = none)
    (hg : f.restartErr = none)
    (hex : (getSlackChannels s.doc).lookup v = some existing) :
    removeTenant f id s =
      (.ok (),
       { doc := setSlackChannels s.doc (removeEntry (getSlackChannels s.doc) v),
         restarts := s.restarts + 1 }) := by
  simp [removeTenant, readConfig, writeConfig, callRestart, hv, hr, hw, hg, hex]

theorem getTenant_found_run (f : Faults) (id : String) (s : SystemState) (v : String)
    (ch : TenantChannelConfig)
    (hv : validateTenantId id = .ok v) (hr : f.readErr = none)
    (hex : (getSlackChannels s.doc).lookup v = some ch) :
    getTenant f id s = (.ok (channelToTenant v ch), s) := by
  simp [getTenant, readConfig, hv, hr, hex]

theorem getTenant_notFound_run (f : Faults) (id : String) (s : SystemState) (v : String)
    (hv : validateTenantId id = .ok v) (hr : f.readErr = none)
    (habs : (getSlackChannels s.doc).lookup v = none) :
    getTenant f id s = (.error (.tenantNotFound v), s) := by
  simp [getTenant, readConfig, hv, hr, habs]

theorem listTenants_run (f : Faults) (s : SystemState) (hr : f.readErr = none) :
    listTenants f s =
      (.ok ((getSlackChannels s.doc).map (fun p => channelToTenant p.1 p.2)), s) := by
  simp [listTenants, readConfig, hr]

theorem getTenant_validation_run (f : Faults) (id : String) (s : SystemState)
    (e : ServiceError) (hv : validateTenantId id = .error e) :
    getTenant f id s = (.error e, s) := by
  simp [getTenant, hv]

theorem addTenant_validation_run (f : Faults) (id : String) (data : PartialTenantConfig)
    (s : SystemState) (e : ServiceError) (hv : validateTenantId id = .error e) :
    addTenant f id data s = (.error e, s) := by
  simp [addTenant, hv]

theorem updateTenant_validation_run (f : Faults) (id : String) (data : PartialTenantConfig)
    (s : SystemState) (e : ServiceError) (hv : validateTenantId id = .error e) :
    updateTenant f id data s = (.error e, s) := by
  simp [updateTenant, hv]

theorem removeTenant_validation_run (f : Faults) (id : String)
    (s : SystemState) (e : ServiceError) (hv : validateTenantId id = .error e) :
    removeTenant f id s = (.error e, s) := by
  simp [removeTenant, hv]

theorem addTenant_exists_run (f : Faults) (id : String) (data : PartialTenantConfig)
    (s : SystemState) (v : String) (ch : TenantChannelConfig)
    (hv : validateTenantId id = .ok v) (hr : f.readErr = none)
    (hex : (getSlackChannels s.doc).lookup v = some ch) :
    addTenant f id data s = (.error (.tenantAlreadyExists v), s) := by
  simp [addTenant, readConfig, hv, hr, hex]

theorem updateTenant_notFound_run (f : Faults) (id : String) (data : PartialTenantConfig)
    (s : SystemState) (v : String)
    (hv : validateTenantId id = .ok v) (hr : f.readErr = none)
    (habs : (getSlackChannels s.doc).lookup v = none) :
    updateTenant f id data s = (.error (.tenantNotFound v), s) := by
  simp [updateTenant, readConfig, hv, hr, habs]

theorem removeTenant_notFound_run (f : Faults) (id : String)
    (s : SystemState) (v : String)
    (hv : validateTenantId id = .ok v) (hr : f.readErr = none)
    (habs : (getSlackChannels s.doc).lookup v = none) :
    removeTenant f id s = (.error (.tenantNotFound v), s) := by
  simp [removeTenant, readConfig, hv, hr, habs]

theorem addTenant_writeFail_run (f : Faults) (id : String) (data : PartialTenantConfig)
    (s : SystemState) (v : String) (m : String)
    (hv : validateTenantId id = .ok v) (hr : f.readErr = none)
    (hw : f.writeErr = some m)
    (habs : (getSlackChannels s.doc).lookup v = none) :
    addTenant f id data s = (.error (.configWrite m), s) := by
  simp [addTenant, readConfig, writeConfig, hv, hr, hw, habs]

theorem updateTenant_writeFail_run (f : Faults) (id : String) (data : PartialTenantConfig)
    (s : SystemState) (v : String) (existing : TenantChannelConfig) (m : String)
    (hv : validateTenantId id = .ok v) (hr : f.readErr = none)
    (hw : f.writeErr = some m)
    (hex : (getSlackChannels s.doc).lookup v = some existing) :
    updateTenant f id data s = (.error (.configWrite m), s) := by
  simp [updateTenant, readConfig, writeConfig, hv, hr, hw, hex]

theorem removeTenant_writeFail_run (f : Faults) (id : String)
    (s : SystemState) (v : String) (existing : TenantChannelConfig) (m : String)
    (hv : validateTenantId id = .ok v) (hr : f.readErr = none)
    (hw : f.writeErr = some m)
    (hex : (getSlackChannels s.doc).lookup v = some existing) :
    removeTenant f id s = (.error (.configWrite m), s) := by
  simp [removeTenant, readConfig, writeConfig, hv, hr, hw, hex]

theorem addTenant_restartFail_run (f : Faults) (id : String) (data : PartialTenantConfig)
    (s : SystemState) (v : String) (m : String)
    (hv : validateTenantId id = .ok v) (hr : f.readErr = none)
    (hw : f.writeErr = none) (hg : f.restartErr = some m)
    (habs : (getSlackChannels s.doc).lookup v = none) :
    addTenant f id data s =
      (.error (.gateway m),
       { doc := setSlackChannels s.doc (setEntry (getSlackChannels s.doc) v (newChannelFor data)),
         restarts := s.restarts + 1 }) := by
  simp [addTenant, readConfig, writeConfig, callRestart, newChannelFor, hv, hr, hw, hg, habs]

theorem updateTenant_restartFail_run (f : Faults) (id : String) (data : PartialTenantConfig)
    (s : SystemState) (v : String) (existing : TenantChannelConfig) (m : String)
    (hv : validateTenantId id = .ok v) (hr : f.readErr = none)
    (hw : f.writeErr = none) (hg : f.restartErr = some m)
    (hex : (getSlackChannels s.doc).lookup v = some existing) :
    updateTenant f id data s =
      (.error (.gateway m),
       { doc := setSlackChannels s.doc
           (setEntry (getSlackChannels s.doc) v (mergeChannel existing data)),
         restarts := s.restarts + 1 }) := by
  simp [updateTenant, readConfig, writeConfig, callRestart, hv, hr, hw, hg, hex]

theorem removeTenant_restartFail_run (f : Faults) (id : String)
    (s : SystemState) (v : String) (existing : TenantChannelConfig) (m : String)
    (hv : validateTenantId id = .ok v) (hr : f.readErr = none)
    (hw : f.writeErr = none) (hg : f.restartErr = some m)
    (hex : (getSlackChannels s.doc).lookup v = some existing) :
    removeTenant f id s =
      (.error (.gateway m),
       { doc := setSlackChannels s.doc (removeEntry (getSlackChannels s.doc) v),
         restarts := s.restarts + 1 }) := by
  simp [removeTenant, readConfig, writeConfig, callRestart, hv, hr, hw, hg, hex]

/-! ## Inversion lemmas: what a successful run implies -/

theorem addTenant_ok_inv (f : Faults) (id : String) (data : PartialTenantConfig)
    (s : SystemState) (t : TenantConfig) (s' : SystemState)
    (h : addTenant f id data s = (.ok t, s')) :
    ∃ v, validateTenantId id = .ok v ∧
      (getSlackChannels s.doc).lookup v = none ∧
      s' = { doc := setSlackChannels s.doc
               (setEntry (getSlackChannels s.doc) v (newChannelFor data)),
             restarts := s.restarts + 1 } ∧
      t = channelToTenant v (newChannelFor data) := by
  cases hval : validateTenantId id with
  | error e => rw [addTenant_validation_run f id data s e hval] at h; simp at h
  | ok v =>
    cases hr : f.readErr with
    | some m => simp only [addTenant, readConfig, hval, hr] at h; simp at h
    | none =>
      cases hex : (getSlackChannels s.doc).lookup v with
      | some ch => rw [addTenant_exists_run f id data s v ch hval hr hex] at h; simp at h
      | none =>
        cases hw : f.writeErr with
        | some m => rw [addTenant_writeFail_run f id data s v m hval hr hw hex] at h; simp at h
        | none =>
          cases hg : f.restartErr with
          | some m =>
            rw [addTenant_restartFail_run f id data s v m hval hr hw hg hex] at h
            simp at h
          | none =>
            rw [addTenant_ok_run f id data s v hval hr hw hg hex] at h
            obtain ⟨h1, h2⟩ := Prod.mk.injEq .. ▸ h
            exact ⟨v, rfl, hex, h2.symm, (Except.ok.injEq .. ▸ h1).symm⟩

theorem updateTenant_ok_inv (f : Faults) (id : String) (data : PartialTenantConfig)
    (s : SystemState) (t : TenantConfig) (s' : SystemState)
    (h : updateTenant f id data s = (.ok t, s')) :
    ∃ v existing, validateTenantId id = .ok v ∧
      (getSlackChannels s.doc).lookup v = some existing ∧
      s' = { doc := setSlackChannels s.doc
               (setEntry (getSlackChannels s.doc) v (mergeChannel existing data)),
             restarts := s.restarts + 1 } ∧
      t = channelToTenant v (mergeChannel existing data) := by
  cases hval : validateTenantId id with
  | error e => rw [updateTenant_validation_run f id data s e hval] at h; simp at h
  | ok v =>
    cases hr : f.readErr with
    | some m => simp only [updateTenant, readConfig, hval, hr] at h; simp at h
    | none =>
      cases hex : (getSlackChannels s.doc).lookup v with
      | none => rw [updateTenant_notFound_run f id data s v hval hr hex] at h; simp at h
      | some existing =>
        cases hw : f.writeErr with
        | some m =>
          rw [updateTenant_writeFail_run f id data s v existing m hval hr hw hex] at h
          simp at h
        | none =>
          cases hg : f.restartErr with
          | some m =>
            rw [updateTenant_restartFail_run f id data s v existing m hval hr hw hg hex] at h
            simp at h
          | none =>
            rw [updateTenant_ok_run f id data s v existing hval hr hw hg hex] at h
            obtain ⟨h1, h2⟩ := Prod.mk.injEq .. ▸ h
            exact ⟨v, existing, rfl, hex, h2.symm, (Except.ok.injEq .. ▸ h1).symm⟩

theorem removeTenant_ok_inv (f : Faults) (id : String)
    (s : SystemState) (s' : SystemState)
    (h : removeTenant f id s = (.ok (), s')) :
    ∃ v existing, validateTenantId id = .ok v ∧
      (getSlackChannels s.doc).lookup v = some existing ∧
      s' = { doc := setSlackChannels s.doc (removeEntry (getSlackChannels s.doc) v),
             restarts := s.restarts + 1 } := by
  cases hval : validateTenantId id with
  | error e => rw [removeTenant_validation_run f id s e hval] at h; simp at h
  | ok v =>
    cases hr : f.readErr with
    | some m => simp only [removeTenant, readConfig, hval, hr] at h; simp at h
    | none =>
      cases hex : (getSlackChannels s.doc).lookup v with
      | none => rw [removeTenant_notFound_run f id s v hval hr hex] at h; simp at h
      | some existing =>
        cases hw : f.writeErr with
        | some m =>
          rw [removeTenant_writeFail_run f id s v existing m hval hr hw hex] at h
          simp at h
        | none =>
          cases hg : f.restartErr with
          | some m =>
            rw [removeTenant_restartFail_run f id s v existing m hval hr hw hg hex] at h
            simp at h
          | none =>
            rw [removeTenant_ok_run f id s v existing hval hr hw hg hex] at h
            obtain ⟨h1, h2⟩ := Prod.mk.injEq .. ▸ h
            exact ⟨v, existing, rfl, hex, h2.symm⟩

theorem getTenant_state (f : Faults) (id : String) (s : SystemState) :
    (getTenant f id s).2 = s := by
  unfold getTenant readConfig
  cases validateTenantId id <;> cases f.readErr <;> simp
  cases (getSlackChannels s.doc).lookup _ <;> simp

theorem listTenants_state (f : Faults) (s : SystemState) :
    (listTenants f s).2 = s := by
  unfold listTenants readConfig
  cases f.readErr <;> simp

/-! ## Concrete fixtures -/

/-- A fresh document with no tenants (the `emptyConfig` of the tests). -/
def emptyDoc : OpenClawConfig := { channels := {} }

/-- Initial system state: empty document, no restarts yet. -/
def state0 : SystemState := { doc := emptyDoc, restarts := 0 }

/-- The `acme-corp` stored entry of the test fixture `configWithTenant`. -/
def acmeChannel : TenantChannelConfig :=
  { name := some "Acme Corp", systemPrompt := some "You are the Acme assistant.",
    tools := some { deny := ["exec", "write", "edit"] }, users := some ["U001", "U002"],
    enabled := some true, paid := some true, groupPolicy := some .allowlist }

/-- A document holding the single tenant `acme-corp` plus an unrelated
opaque top-level key. -/
def docWithAcme : OpenClawConfig :=
  { channels := { slack := some { channels := some [("acme-corp", acmeChannel)] } },
    extra := [("unrelated", JVal.str "keep-me")] }

/-- State holding `docWithAcme`. -/
def stateWithAcme : SystemState := { doc := docWithAcme, restarts := 0 }

/-- Did the operation succeed? -/
def succeeded {α : Type} : Except ServiceError α → Bool
  | .ok _ => true
  | .error _ => false

/-- Is this result a `Validation`-kind failure? -/
def isValidationErr {α : Type} : Except ServiceError α → Bool
  | .error (.validation _ _) => true
  | _ => false

/-! ## Claim C1 -/

/-- Data with an explicit but empty deny list. -/
def emptyDenyData : PartialTenantConfig := { tools := some { deny := [] } }

/-- C1 counterexample: the claim quantifies over every input `data`, but
`addTenant` with an explicit empty tool policy (`tools: { deny: [] }`)
succeeds and returns a record whose `tools.deny` is empty — the safe
default is applied only when `tools` is absent. -/
theorem c1_counterexample :
    ((addTenant noFaults "acme-corp" emptyDenyData state0).1.map
      (fun t => t.tools.deny)) = .ok ([] : List String) := by
  rfl

/-- C1 (amended): whenever a tenant is created (`addTenant`) or read back
(`channelToTenant`, hence `getTenant`/`listTenants`) without an explicit
tool policy, its `tools.deny` equals the default deny list, a superset of
`{exec, write, edit, gateway, cron, message}`; and every record
`listTenants` returns is the `channelToTenant` image of a stored entry. -/
theorem c1_safe_default_deny :
    (∀ id ch, ch.tools = none →
      (channelToTenant id ch).tools.deny = DEFAULT_TOOL_DENY) ∧
    (∀ f s id data t, data.tools = none → (addTenant f id data s).1 = .ok t →
      t.tools.deny = DEFAULT_TOOL_DENY) ∧
    (∀ f s id v ch t, validateTenantId id = .ok v →
      (getSlackChannels s.doc).lookup v = some ch → ch.tools = none →
      (getTenant f id s).1 = .ok t → t.tools.deny = DEFAULT_TOOL_DENY) ∧
    (∀ f s ts, (listTenants f s).1 = .ok ts →
      ∀ t ∈ ts, ∃ p ∈ getSlackChannels s.doc, t = channelToTenant p.1 p.2) ∧
    (∀ x ∈ ["exec", "write", "edit", "gateway", "cron", "message"],
      x ∈ DEFAULT_TOOL_DENY) := by
  refine ⟨?_, ?_, ?_, ?_, ?_⟩
  · intro id ch h
    simp [channelToTenant, h]
  · intro f s id data t hd h
    rcases hre : addTenant f id data s with ⟨r, s2⟩
    rw [hre] at h
    simp only at h
    subst h
    obtain ⟨v, hv, hex, hs, ht⟩ := addTenant_ok_inv f id data s t s2 hre
    subst ht
    simp [channelToTenant, newChannelFor, tenantToChannel, hd]
  · intro f s id v ch t hv hex hch h
    cases hr : f.readErr with
    | some m =>
      simp only [getTenant, readConfig, hv, hr] at h
      simp at h
    | none =>
      rw [getTenant_found_run f id s v ch hv hr hex] at h
      simp only at h
      obtain rfl := Except.ok.injEq .. ▸ h.symm
      simp [channelToTenant, hch]
  · intro f s ts h t ht
    cases hr : f.readErr with
    | some m =>
      simp only [listTenants, readConfig, hr] at h
      simp at h
    | none =>
      rw [listTenants_run f s hr] at h
      simp only at h
      obtain rfl := Except.ok.injEq .. ▸ h.symm
      obtain ⟨p, hp, rfl⟩ := List.mem_map.mp ht
      exact ⟨p, hp, rfl⟩
  · intro x hx
    fin_cases hx <;> simp [DEFAULT_TOOL_DENY]

/-- C1 witness: a concrete creation without a tool policy gets the
default deny list. -/
theorem c1_safe_default_deny_witness :
    (({ name := some "New Client" } : PartialTenantConfig).tools = none) ∧
    ((addTenant noFaults "new-client" { name := some "New Client" } state0).1 =
      .ok (channelToTenant "new-client" (newChannelFor { name := some "New Client" }))) ∧
    (channelToTenant "new-client" (newChannelFor { name := some "New Client" })).tools.deny
      = DEFAULT_TOOL_DENY :=
  ⟨rfl, rfl,
    c1_safe_default_deny.2.1 noFaults state0 "new-client" { name := some "New Client" }
      (channelToTenant "new-client" (newChannelFor { name := some "New Client" })) rfl rfl⟩

/-! ## Claim C7 -/

/-- C7: id validation fails with kind `Validation` exactly when the id is
empty or whitespace-only, contains two consecutive characters from
`{., /, \}` (which subsumes the literal `..`), or exceeds 255 characters;
on success it returns the trimmed id; and the operations address the
tenant map under the trimmed id (`getTenant` looks it up there, `addTenant`
stores there). -/
theorem c7_validate_tenant_id :
    (∀ id, isValidationErr (validateTenantId id) = true ↔
      ((jsTrim id).length = 0 ∨ hasTraversalPair id = true ∨ id.length > 255)) ∧
    (∀ id v, validateTenantId id = .ok v → v = jsTrim id) ∧
    (∀ f s id v, validateTenantId id = .ok v → f.readErr = none →
      ((getSlackChannels s.doc).lookup v = none →
        (getTenant f id s).1 = .error (.tenantNotFound v)) ∧
      (∀ ch, (getSlackChannels s.doc).lookup v = some ch →
        (getTenant f id s).1 = .ok (channelToTenant v ch))) ∧
    (∀ f s id data t s' v, validateTenantId id = .ok v →
      addTenant f id data s = (.ok t, s') →
      (getSlackChannels s'.doc).lookup v = some (newChannelFor data)) := by
  refine ⟨?_, ?_, ?_, ?_⟩
  · intro id
    unfold validateTenantId
    split_ifs with h1 h2 h3
    · simp only [isValidationErr, true_iff]
      rcases h1 with h1 | h1
      · subst h1
        left
        rfl
      · exact Or.inl h1
    · simp only [isValidationErr, true_iff]
      exact Or.inr (Or.inl h2)
    · simp only [isValidationErr, true_iff]
      exact Or.inr (Or.inr h3)
    · simp only [isValidationErr]
      constructor
      · intro hfalse
        simp at hfalse
      · intro hc
        push_neg at h1
        rcases hc with hc | hc | hc
        · exact absurd hc h1.2
        · exact absurd hc (by simpa using h2)
        · exact absurd hc h3
  · intro id v h
    unfold validateTenantId at h
    split_ifs at h
    exact (Except.ok.injEq .. ▸ h).symm
  · intro f s id v hv hr
    constructor
    · intro habs
      rw [getTenant_notFound_run f id s v hv hr habs]
    · intro ch hex
      rw [getTenant_found_run f id s v ch hv hr hex]
  · intro f s id data t s' v hv h
    obtain ⟨v2, hv2, hex, hs, ht⟩ := addTenant_ok_inv f id data s t s' h
    rw [hv] at hv2
    have hvv : v = v2 := Except.ok.injEq .. ▸ hv2
    subst hvv
    subst hs
    simp only
    rw [getSlackChannels_setSlackChannels]
    exact lookup_setEntry_self _ _ _

/-- C7 witness: concrete instances — `" x "` validates to the trimmed
`"x"`, and `getTenant` addresses storage under the trimmed id. -/
theorem c7_validate_tenant_id_witness :
    (isValidationErr (validateTenantId "../../etc/passwd") = true ↔
      ((jsTrim "../../etc/passwd").length = 0 ∨
        hasTraversalPair "../../etc/passwd" = true ∨
        ("../../etc/passwd" : String).length > 255)) ∧
    (validateTenantId " x " = .ok "x") ∧ ("x" = jsTrim " x ") ∧
    (validateTenantId "acme-corp" = .ok "acme-corp") ∧
    (noFaults.readErr = none) ∧
    ((getSlackChannels stateWithAcme.doc).lookup "acme-corp" = some acmeChannel) ∧
    ((getTenant noFaults "acme-corp" stateWithAcme).1 =
      .ok (channelToTenant "acme-corp" acmeChannel)) :=
  ⟨c7_validate_tenant_id.1 "../../etc/passwd",
   rfl,
   c7_validate_tenant_id.2.1 " x " "x" rfl,
   rfl, rfl, rfl,
   (c7_validate_tenant_id.2.2.1 noFaults stateWithAcme "acme-corp" "acme-corp" rfl rfl).2
     acmeChannel rfl⟩

/-! ## Claim C4 -/

/-- A 300-character id. -/
def longId : String := String.mk (List.replicate 300 'a')

set_option maxRecDepth 16000 in
/-- C4: `addTenant` on a present id fails with `AlreadyExists`; the five
id-addressed operations fail with `NotFound` on an absent id; `addTenant`
with `""`, `"   "`, `"../../etc/passwd"` or a 300-character id fails with
`Validation`; and in every such failure the returned state — document and
restart count — is exactly the pre-call state (no write, no reload). -/
theorem c4_failures_typed_and_atomic :
    (∀ f s id data v ch, validateTenantId id = .ok v → f.readErr = none →
      (getSlackChannels s.doc).lookup v = some ch →
      addTenant f id data s = (.error (.tenantAlreadyExists v), s)) ∧
    (∀ f s id v, validateTenantId id = .ok v → f.readErr = none →
      (getSlackChannels s.doc).lookup v = none →
      getTenant f id s = (.error (.tenantNotFound v), s)) ∧
    (∀ f s id data v, validateTenantId id = .ok v → f.readErr = none →
      (getSlackChannels s.doc).lookup v = none →
      updateTenant f id data s = (.error (.tenantNotFound v), s)) ∧
    (∀ f s id v, validateTenantId id = .ok v → f.readErr = none →
      (getSlackChannels s.doc).lookup v = none →
      removeTenant f id s = (.error (.tenantNotFound v), s)) ∧
    (∀ f s id v, validateTenantId id = .ok v → f.readErr = none →
      (getSlackChannels s.doc).lookup v = none →
      pauseTenant f id s = (.error (.tenantNotFound v), s)) ∧
    (∀ f s id v, validateTenantId id = .ok v → f.readErr = none →
      (getSlackChannels s.doc).lookup v = none →
      activateTenant f id s = (.error (.tenantNotFound v), s)) ∧
    (∀ f s data, addTenant f "" data s =
      (.error (.validation "id" "Tenant ID cannot be empty"), s)) ∧
    (∀ f s data, addTenant f "   " data s =
      (.error (.validation "id" "Tenant ID cannot be empty"), s)) ∧
    (∀ f s data, addTenant f "../../etc/passwd" data s =
      (.error (.validation "id" "Tenant ID contains path traversal characters"), s)) ∧
    (∀ f s data, addTenant f longId data s =
      (.error (.validation "id" "Tenant ID too long (max 255)"), s)) := by
  have hupd : ∀ f s id data v, validateTenantId id = .ok v → f.readErr = none →
      (getSlackChannels s.doc).lookup v = none →
      updateTenant f id data s = (.error (.tenantNotFound v), s) := by
    intro f s id data v hv hr habs
    exact updateTenant_notFound_run f id data s v hv hr habs
  refine ⟨?_, ?_, hupd, ?_, ?_, ?_, ?_, ?_, ?_, ?_⟩
  · intro f s id data v ch hv hr hex
    exact addTenant_exists_run f id data s v ch hv hr hex
  · intro f s id v hv hr habs
    exact getTenant_notFound_run f id s v hv hr habs
  · intro f s id v hv hr habs
    exact removeTenant_notFound_run f id s v hv hr habs
  · intro f s id v hv hr habs
    exact hupd f s id _ v hv hr habs
  · intro f s id v hv hr habs
    exact hupd f s id _ v hv hr habs
  · intro f s data
    exact addTenant_validation_run f "" data s _ rfl
  · intro f s data
    exact addTenant_validation_run f "   " data s _ rfl
  · intro f s data
    exact addTenant_validation_run f "../../etc/passwd" data s _ rfl
  · intro f s data
    exact addTenant_validation_run f longId data s _ (by rfl)

/-- C4 witness: concrete instances — duplicate add on `acme-corp` and a
`getTenant` of a missing id, with unchanged state. -/
theorem c4_failures_typed_and_atomic_witness :
    (validateTenantId "acme-corp" = .ok "acme-corp") ∧
    (noFaults.readErr = none) ∧
    ((getSlackChannels stateWithAcme.doc).lookup "acme-corp" = some acmeChannel) ∧
    (addTenant noFaults "acme-corp" { name := some "Duplicate" } stateWithAcme =
      (.error (.tenantAlreadyExists "acme-corp"), stateWithAcme)) ∧
    ((getSlackChannels stateWithAcme.doc).lookup "ghost" = none) ∧
    (getTenant noFaults "ghost" stateWithAcme =
      (.error (.tenantNotFound "ghost"), stateWithAcme)) :=
  ⟨rfl, rfl, rfl,
   c4_failures_typed_and_atomic.1 noFaults stateWithAcme "acme-corp"
     { name := some "Duplicate" } "acme-corp" acmeChannel rfl rfl rfl,
   rfl,
   c4_failures_typed_and_atomic.2.1 noFaults stateWithAcme "ghost" "ghost" rfl rfl rfl⟩

/-! ## Claim C2 -/

/-- C2: `updateTenant` is a field-level merge: the stored record after a
successful update is `mergeChannel existing data`, where every field
omitted from `data` keeps the prior stored value, every field present is
replaced by the supplied value, and the opaque extra keys of the stored
record are untouched. -/
theorem c2_update_field_merge :
    ∀ f s id data v existing, validateTenantId id = .ok v →
      (getSlackChannels s.doc).lookup v = some existing →
      f.readErr = none → f.writeErr = none → f.restartErr = none →
      (updateTenant f id data s).1 = .ok (channelToTenant v (mergeChannel existing data)) ∧
      (getSlackChannels (updateTenant f id data s).2.doc).lookup v
        = some (mergeChannel existing data) ∧
      (data.name = none → (mergeChannel existing data).name = existing.name) ∧
      (∀ x, data.name = some x → (mergeChannel existing data).name = some x) ∧
      (data.systemPrompt = none →
        (mergeChannel existing data).systemPrompt = existing.systemPrompt) ∧
      (∀ x, data.systemPrompt = some x → (mergeChannel existing data).systemPrompt = some x) ∧
      (data.tools = none → (mergeChannel existing data).tools = existing.tools) ∧
      (∀ x, data.tools = some x → (mergeChannel existing data).tools = some x) ∧
      (data.users = none → (mergeChannel existing data).users = existing.users) ∧
      (∀ x, data.users = some x → (mergeChannel existing data).users = some x) ∧
      (data.enabled = none → (mergeChannel existing data).enabled = existing.enabled) ∧
      (∀ x, data.enabled = some x → (mergeChannel existing data).enabled = some x) ∧
      (data.paid = none → (mergeChannel existing data).paid = existing.paid) ∧
      (∀ x, data.paid = some x → (mergeChannel existing data).paid = some x) ∧
      (data.groupPolicy = none →
        (mergeChannel existing data).groupPolicy = existing.groupPolicy) ∧
      (∀ x, data.groupPolicy = some x → (mergeChannel existing data).groupPolicy = some x) ∧
      (mergeChannel existing data).extra = existing.extra := by
  intro f s id data v existing hv hex hr hw hg
  rw [updateTenant_ok_run f id data s v existing hv hr hw hg hex]
  refine ⟨rfl, ?_, ?_, ?_, ?_, ?_, ?_, ?_, ?_, ?_, ?_, ?_, ?_, ?_, ?_, ?_, rfl⟩
  · simp only
    rw [getSlackChannels_setSlackChannels]
    exact lookup_setEntry_self _ _ _
  all_goals first
    | (intro h; simp [mergeChannel, h])
    | (intro x h; simp [mergeChannel, h])

/-- C2 witness: updating only the system prompt of `acme-corp` leaves its
non-empty `users` (and every other omitted field) unchanged. -/
theorem c2_update_field_merge_witness :
    (validateTenantId "acme-corp" = .ok "acme-corp") ∧
    ((getSlackChannels stateWithAcme.doc).lookup "acme-corp" = some acmeChannel) ∧
    (({ systemPrompt := some "x" } : PartialTenantConfig).users = none) ∧
    ((mergeChannel acmeChannel { systemPrompt := some "x" }).users = acmeChannel.users) ∧
    (acmeChannel.users = some ["U001", "U002"]) :=
  ⟨rfl, rfl, rfl,
   (c2_update_field_merge noFaults stateWithAcme "acme-corp" { systemPrompt := some "x" }
     "acme-corp" acmeChannel rfl rfl rfl rfl rfl).2.2.2.2.2.2.2.2.1 rfl,
   rfl⟩

/-! ## Claim C3 -/

/-- C3: every successful mutating operation on tenant `v` preserves every
part of the document outside the tenant sub-path — the opaque keys at the
top level, inside `channels`, and inside `channels.slack` — and every
tenant record other than `v`. -/
theorem c3_sibling_preservation :
    (∀ f s id data t s' v, validateTenantId id = .ok v →
      addTenant f id data s = (.ok t, s') → preservesOutside s.doc s'.doc v) ∧
    (∀ f s id data t s' v, validateTenantId id = .ok v →
      updateTenant f id data s = (.ok t, s') → preservesOutside s.doc s'.doc v) ∧
    (∀ f s id s' v, validateTenantId id = .ok v →
      removeTenant f id s = (.ok (), s') → preservesOutside s.doc s'.doc v) ∧
    (∀ f s id t s' v, validateTenantId id = .ok v →
      pauseTenant f id s = (.ok t, s') → preservesOutside s.doc s'.doc v) ∧
    (∀ f s id t s' v, validateTenantId id = .ok v →
      activateTenant f id s = (.ok t, s') → preservesOutside s.doc s'.doc v) := by
  have hupd : ∀ f s id data t s' v, validateTenantId id = .ok v →
      updateTenant f id data s = (.ok t, s') → preservesOutside s.doc s'.doc v := by
    intro f s id data t s' v hv h
    obtain ⟨v2, existing, hv2, hex, hs, ht⟩ := updateTenant_ok_inv f id data s t s' h
    rw [hv] at hv2
    have hvv : v = v2 := Except.ok.injEq .. ▸ hv2
    subst hvv
    subst hs
    refine ⟨rfl, rfl, slackExtra_setSlackChannels .., ?_⟩
    rw [getSlackChannels_setSlackChannels]
    exact removeEntry_setEntry _ _ _
  refine ⟨?_, hupd, ?_, ?_, ?_⟩
  · intro f s id data t s' v hv h
    obtain ⟨v2, hv2, hex, hs, ht⟩ := addTenant_ok_inv f id data s t s' h
    rw [hv] at hv2
    have hvv : v = v2 := Except.ok.injEq .. ▸ hv2
    subst hvv
    subst hs
    refine ⟨rfl, rfl, slackExtra_setSlackChannels .., ?_⟩
    rw [getSlackChannels_setSlackChannels]
    exact removeEntry_setEntry _ _ _
  · intro f s id s' v hv h
    obtain ⟨v2, existing, hv2, hex, hs⟩ := removeTenant_ok_inv f id s s' h
    rw [hv] at hv2
    have hvv : v = v2 := Except.ok.injEq .. ▸ hv2
    subst hvv
    subst hs
    refine ⟨rfl, rfl, slackExtra_setSlackChannels .., ?_⟩
    rw [getSlackChannels_setSlackChannels]
    exact removeEntry_removeEntry _ _
  · intro f s id t s' v hv h
    exact hupd f s id _ t s' v hv h
  · intro f s id t s' v hv h
    exact hupd f s id _ t s' v hv h

/-- C3 witness: a concrete prompt-only update of `acme-corp` preserves
the unrelated top-level key and the (empty) set of sibling tenants. -/
theorem c3_sibling_preservation_witness :
    (validateTenantId "acme-corp" = .ok "acme-corp") ∧
    (updateTenant noFaults "acme-corp" { systemPrompt := some "x" } stateWithAcme
      = (.ok (channelToTenant "acme-corp" (mergeChannel acmeChannel { systemPrompt := some "x" })),
         (updateTenant noFaults "acme-corp" { systemPrompt := some "x" } stateWithAcme).2)) ∧
    preservesOutside stateWithAcme.doc
      (updateTenant noFaults "acme-corp" { systemPrompt := some "x" } stateWithAcme).2.doc
      "acme-corp" :=
  ⟨rfl, rfl,
   c3_sibling_preservation.2.1 noFaults stateWithAcme "acme-corp" { systemPrompt := some "x" }
     _ _ "acme-corp" rfl rfl⟩

/-! ## Claim C5 -/

/-- Step 1 of the lifecycle scenario: create. -/
def lcAdd : Except ServiceError TenantConfig × SystemState :=
  addTenant noFaults "lifecycle-test"
    { name := some "Lifecycle Co", systemPrompt := some "v1", users := some ["U001"] } state0

/-- Step 2: update prompt and users. -/
def lcUpdate : Except ServiceError TenantConfig × SystemState :=
  updateTenant noFaults "lifecycle-test"
    { systemPrompt := some "v2", users := some ["U001", "U002"] } lcAdd.2

/-- Step 3: pause. -/
def lcPause : Except ServiceError TenantConfig × SystemState :=
  pauseTenant noFaults "lifecycle-test" lcUpdate.2

/-- Step 4: activate. -/
def lcActivate : Except ServiceError TenantConfig × SystemState :=
  activateTenant noFaults "lifecycle-test" lcPause.2

/-- Step 5: remove. -/
def lcRemove : Except ServiceError Unit × SystemState :=
  removeTenant noFaults "lifecycle-test" lcActivate.2

/-- C5: every successful mutating operation performs exactly one gateway
restart; the read-only operations return the state untouched (document and
restart count); and the concrete add → update → pause → activate → remove
lifecycle succeeds at every step and accumulates exactly 5 restarts. -/
theorem c5_reload_once_per_mutation :
    (∀ f s id data t s', addTenant f id data s = (.ok t, s') →
      s'.restarts = s.restarts + 1) ∧
    (∀ f s id data t s', updateTenant f id data s = (.ok t, s') →
      s'.restarts = s.restarts + 1) ∧
    (∀ f s id s', removeTenant f id s = (.ok (), s') →
      s'.restarts = s.restarts + 1) ∧
    (∀ f s id t s', pauseTenant f id s = (.ok t, s') →
      s'.restarts = s.restarts + 1) ∧
    (∀ f s id t s', activateTenant f id s = (.ok t, s') →
      s'.restarts = s.restarts + 1) ∧
    (∀ f s, (listTenants f s).2 = s) ∧
    (∀ f id s, (getTenant f id s).2 = s) ∧
    (succeeded lcAdd.1 = true ∧ succeeded lcUpdate.1 = true ∧
      succeeded lcPause.1 = true ∧ succeeded lcActivate.1 = true ∧
      succeeded lcRemove.1 = true ∧ lcRemove.2.restarts = 5) := by
  have hupd : ∀ f s id data t s', updateTenant f id data s = (.ok t, s') →
      s'.restarts = s.restarts + 1 := by
    intro f s id data t s' h
    obtain ⟨v, existing, hv, hex, hs, ht⟩ := updateTenant_ok_inv f id data s t s' h
    subst hs
    rfl
  refine ⟨?_, hupd, ?_, ?_, ?_, listTenants_state, ?_, rfl, rfl, rfl, rfl, rfl, rfl⟩
  · intro f s id data t s' h
    obtain ⟨v, hv, hex, hs, ht⟩ := addTenant_ok_inv f id data s t s' h
    subst hs
    rfl
  · intro f s id s' h
    obtain ⟨v, existing, hv, hex, hs⟩ := removeTenant_ok_inv f id s s' h
    subst hs
    rfl
  · intro f s id t s' h
    exact hupd f s id _ t s' h
  · intro f s id t s' h
    exact hupd f s id _ t s' h
  · intro f id s
    exact getTenant_state f id s

/-- C5 witness: one concrete successful add performs exactly one restart. -/
theorem c5_reload_once_per_mutation_witness :
    (addTenant noFaults "new-client" { name := some "New" } state0
      = (.ok (channelToTenant "new-client" (newChannelFor { name := some "New" })),
         (addTenant noFaults "new-client" { name := some "New" } state0).2)) ∧
    ((addTenant noFaults "new-client" { name := some "New" } state0).2.restarts
      = state0.restarts + 1) :=
  ⟨rfl,
   c5_reload_once_per_mutation.1 noFaults state0 "new-client" { name := some "New" }
     (channelToTenant "new-client" (newChannelFor { name := some "New" }))
     (addTenant noFaults "new-client" { name := some "New" } state0).2 rfl⟩

/-! ## Claim C6 -/

/-- C6: for every mutating operation, a store-write failure yields the
`ConfigWriteError`, triggers no reload, and leaves the state (document and
restart count) unchanged; a reload failure after a successful write leaves
the mutated document persisted (not rolled back) and surfaces the distinct
`GatewayError`. -/
theorem c6_write_fail_vs_reload_fail :
    (∀ f s id data v m, validateTenantId id = .ok v → f.readErr = none →
      f.writeErr = some m → (getSlackChannels s.doc).lookup v = none →
      addTenant f id data s = (.error (.configWrite m), s)) ∧
    (∀ f s id data v existing m, validateTenantId id = .ok v → f.readErr = none →
      f.writeErr = some m → (getSlackChannels s.doc).lookup v = some existing →
      updateTenant f id data s = (.error (.configWrite m), s)) ∧
    (∀ f s id v existing m, validateTenantId id = .ok v → f.readErr = none →
      f.writeErr = some m → (getSlackChannels s.doc).lookup v = some existing →
      removeTenant f id s = (.error (.configWrite m), s)) ∧
    (∀ f s id v existing m, validateTenantId id = .ok v → f.readErr = none →
      f.writeErr = some m → (getSlackChannels s.doc).lookup v = some existing →
      pauseTenant f id s = (.error (.configWrite m), s)) ∧
    (∀ f s id v existing m, validateTenantId id = .ok v → f.readErr = none →
      f.writeErr = some m → (getSlackChannels s.doc).lookup v = some existing →
      activateTenant f id s = (.error (.configWrite m), s)) ∧
    (∀ f s id data v m, validateTenantId id = .ok v → f.readErr = none →
      f.writeErr = none → f.restartErr = some m →
      (getSlackChannels s.doc).lookup v = none →
      addTenant f id data s =
        (.error (.gateway m),
         { doc := setSlackChannels s.doc
             (setEntry (getSlackChannels s.doc) v (newChannelFor data)),
           restarts := s.restarts + 1 })) ∧
    (∀ f s id data v existing m, validateTenantId id = .ok v → f.readErr = none →
      f.writeErr = none → f.restartErr = some m →
      (getSlackChannels s.doc).lookup v = some existing →
      updateTenant f id data s =
        (.error (.gateway m),
         { doc := setSlackChannels s.doc
             (setEntry (getSlackChannels s.doc) v (mergeChannel existing data)),
           restarts := s.restarts + 1 })) ∧
    (∀ f s id v existing m, validateTenantId id = .ok v → f.readErr = none →
      f.writeErr = none → f.restartErr = some m →
      (getSlackChannels s.doc).lookup v = some existing →
      removeTenant f id s =
        (.error (.gateway m),
         { doc := setSlackChannels s.doc (removeEntry (getSlackChannels s.doc) v),
           restarts := s.restarts + 1 })) ∧
    (∀ f s id v existing m, validateTenantId id = .ok v → f.readErr = none →
      f.writeErr = none → f.restartErr = some m →
      (getSlackChannels s.doc).lookup v = some existing →
      pauseTenant f id s =
        (.error (.gateway m),
         { doc := setSlackChannels s.doc
             (setEntry (getSlackChannels s.doc) v
               (mergeChannel existing { enabled := some false })),
           restarts := s.restarts + 1 })) ∧
    (∀ f s id v existing m, validateTenantId id = .ok v → f.readErr = none →
      f.writeErr = none → f.restartErr = some m →
      (getSlackChannels s.doc).lookup v = some existing →
      activateTenant f id s =
        (.error (.gateway m),
         { doc := setSlackChannels s.doc
             (setEntry (getSlackChannels s.doc) v
               (mergeChannel existing { enabled := some true })),
           restarts := s.restarts + 1 })) := by
  refine ⟨?_, ?_, ?_, ?_, ?_, ?_, ?_, ?_, ?_, ?_⟩
  · intro f s id data v m hv hr hw habs
    exact addTenant_writeFail_run f id data s v m hv hr hw habs
  · intro f s id data v existing m hv hr hw hex
    exact updateTenant_writeFail_run f id data s v existing m hv hr hw hex
  · intro f s id v existing m hv hr hw hex
    exact removeTenant_writeFail_run f id s v existing m hv hr hw hex
  · intro f s id v existing m hv hr hw hex
    exact updateTenant_writeFail_run f id _ s v existing m hv hr hw hex
  · intro f s id v existing m hv hr hw hex
    exact updateTenant_writeFail_run f id _ s v existing m hv hr hw hex
  · intro f s id data v m hv hr hw hg habs
    exact addTenant_restartFail_run f id data s v m hv hr hw hg habs
  · intro f s id data v existing m hv hr hw hg hex
    exact updateTenant_restartFail_run f id data s v existing m hv hr hw hg hex
  · intro f s id v existing m hv hr hw hg hex
    exact removeTenant_restartFail_run f id s v existing m hv hr hw hg hex
  · intro f s id v existing m hv hr hw hg hex
    exact updateTenant_restartFail_run f id _ s v existing m hv hr hw hg hex
  · intro f s id v existing m hv hr hw hg hex
    exact updateTenant_restartFail_run f id _ s v existing m hv hr hw hg hex

/-- Faults where the store write fails. -/
def writeFailFaults : Faults := { writeErr := some "disk full" }

/-- Faults where the gateway restart fails. -/
def restartFailFaults : Faults := { restartErr := some "gateway down" }

/-- C6 witness: a concrete failing write leaves the state unchanged; a
concrete failing restart leaves the updated document persisted with the
`GatewayError` surfaced. -/
theorem c6_write_fail_vs_reload_fail_witness :
    (validateTenantId "acme-corp" = .ok "acme-corp") ∧
    (writeFailFaults.writeErr = some "disk full") ∧
    ((getSlackChannels stateWithAcme.doc).lookup "acme-corp" = some acmeChannel) ∧
    (updateTenant writeFailFaults "acme-corp" { systemPrompt := some "x" } stateWithAcme =
      (.error (.configWrite "disk full"), stateWithAcme)) ∧
    (restartFailFaults.restartErr = some "gateway down") ∧
    (updateTenant restartFailFaults "acme-corp" { systemPrompt := some "x" } stateWithAcme =
      (.error (.gateway "gateway down"),
       { doc := setSlackChannels stateWithAcme.doc
           (setEntry (getSlackChannels stateWithAcme.doc) "acme-corp"
             (mergeChannel acmeChannel { systemPrompt := some "x" })),
         restarts := stateWithAcme.restarts + 1 })) :=
  ⟨rfl, rfl, rfl,
   c6_write_fail_vs_reload_fail.2.1 writeFailFaults stateWithAcme "acme-corp"
     { systemPrompt := some "x" } "acme-corp" acmeChannel "disk full" rfl rfl rfl rfl,
   rfl,
   c6_write_fail_vs_reload_fail.2.2.2.2.2.2.1 restartFailFaults stateWithAcme "acme-corp"
     { systemPrompt := some "x" } "acme-corp" acmeChannel "gateway down" rfl rfl rfl rfl rfl⟩

/-! ## Claim C8 -/

/-- C8: creating a tenant with an empty partial record and reading it
back yields the fully-defaulted record: `enabled=true`, `paid=false`,
`groupPolicy=allowlist`, `users=[]`, `systemPrompt=""`, `name` equal to
the (trimmed) id under which it was created, and `tools.deny` equal to
the default deny set. -/
theorem c8_round_trip_defaulting :
    ∀ f s id v, validateTenantId id = .ok v →
      (getSlackChannels s.doc).lookup v = none →
      f.readErr = none → f.writeErr = none → f.restartErr = none →
      (getTenant f id (addTenant f id {} s).2).1 =
        .ok { id := v, name := v, channelName := "#client-" ++ v, systemPrompt := "",
              tools := { deny := DEFAULT_TOOL_DENY }, users := [], enabled := true,
              paid := false, groupPolicy := .allowlist } := by
  intro f s id v hv habs hr hw hg
  rw [addTenant_ok_run f id {} s v hv hr hw hg habs]
  have hlook : (getSlackChannels (setSlackChannels s.doc
      (setEntry (getSlackChannels s.doc) v (newChannelFor {})))).lookup v
      = some (newChannelFor {}) := by
    rw [getSlackChannels_setSlackChannels]
    exact lookup_setEntry_self _ _ _
  rw [getTenant_found_run f id _ v (newChannelFor {}) hv hr hlook]
  rfl

/-- C8 witness: the concrete round trip on a fresh id. -/
theorem c8_round_trip_defaulting_witness :
    (validateTenantId "new-client" = .ok "new-client") ∧
    ((getSlackChannels state0.doc).lookup "new-client" = none) ∧
    ((getTenant noFaults "new-client" (addTenant noFaults "new-client" {} state0).2).1 =
      .ok { id := "new-client", name := "new-client", channelName := "#client-new-client",
            systemPrompt := "", tools := { deny := DEFAULT_TOOL_DENY }, users := [],
            enabled := true, paid := false, groupPolicy := .allowlist }) :=
  ⟨rfl, rfl,
   c8_round_trip_defaulting noFaults state0 "new-client" "new-client" rfl rfl rfl rfl rfl⟩

/-! ## Claim C10 -/

/-- C10: read-back derivation is total and deterministic — every record
the operations return is the `channelToTenant` image of a stored entry
under its id, with `channelName = "#client-" ++ id`, `name` defaulting to
the id, `enabled` true unless the stored field is exactly `false`, `paid`
false unless exactly `true`, and `groupPolicy` defaulting to `allowlist`
unless exactly `open`. -/
theorem c10_read_back_derivation :
    (∀ id ch, (channelToTenant id ch).channelName = "#client-" ++ id) ∧
    (∀ id ch, (channelToTenant id ch).name = ch.name.getD id) ∧
    (∀ id ch, ((channelToTenant id ch).enabled = true ↔ ch.enabled ≠ some false)) ∧
    (∀ id ch, ((channelToTenant id ch).paid = true ↔ ch.paid = some true)) ∧
    (∀ id ch, ((channelToTenant id ch).groupPolicy = GroupPolicy.«open» ↔
      ch.groupPolicy = some GroupPolicy.«open»)) ∧
    (∀ f s ts, (listTenants f s).1 = .ok ts →
      ts = (getSlackChannels s.doc).map (fun p => channelToTenant p.1 p.2)) ∧
    (∀ f s id v ch t, validateTenantId id = .ok v →
      (getSlackChannels s.doc).lookup v = some ch →
      (getTenant f id s).1 = .ok t → t = channelToTenant v ch ∧ t.id = v) ∧
    (∀ f s id data t s', addTenant f id data s = (.ok t, s') →
      ∃ c, (getSlackChannels s'.doc).lookup t.id = some c ∧ t = channelToTenant t.id c) ∧
    (∀ f s id data t s', updateTenant f id data s = (.ok t, s') →
      ∃ c, (getSlackChannels s'.doc).lookup t.id = some c ∧ t = channelToTenant t.id c) := by
  refine ⟨?_, ?_, ?_, ?_, ?_, ?_, ?_, ?_, ?_⟩
  · intro id ch
    rfl
  · intro id ch
    rfl
  · intro id ch
    simp [channelToTenant, bne_iff_ne]
  · intro id ch
    simp [channelToTenant, beq_iff_eq]
  · intro id ch
    simp only [channelToTenant]
    split_ifs with h
    · simpa [beq_iff_eq] using h
    · simp only [beq_iff_eq] at h
      constructor
      · intro hh
        cases hh
      · intro hh
        exact absurd hh h
  · intro f s ts h
    cases hr : f.readErr with
    | some m =>
      simp only [listTenants, readConfig, hr] at h
      simp at h
    | none =>
      rw [listTenants_run f s hr] at h
      simp only at h
      exact (Except.ok.injEq .. ▸ h).symm
  · intro f s id v ch t hv hex h
    cases hr : f.readErr with
    | some m =>
      simp only [getTenant, readConfig, hv, hr] at h
      simp at h
    | none =>
      rw [getTenant_found_run f id s v ch hv hr hex] at h
      simp only at h
      have ht : channelToTenant v ch = t := Except.ok.injEq .. ▸ h
      exact ⟨ht.symm, by rw [← ht]; rfl⟩
  · intro f s id data t s' h
    obtain ⟨v, hv, hex, hs, ht⟩ := addTenant_ok_inv f id data s t s' h
    subst hs
    subst ht
    refine ⟨newChannelFor data, ?_, rfl⟩
    show (getSlackChannels (setSlackChannels s.doc _)).lookup v = _
    rw [getSlackChannels_setSlackChannels]
    exact lookup_setEntry_self _ _ _
  · intro f s id data t s' h
    obtain ⟨v, existing, hv, hex, hs, ht⟩ := updateTenant_ok_inv f id data s t s' h
    subst hs
    subst ht
    refine ⟨mergeChannel existing data, ?_, rfl⟩
    show (getSlackChannels (setSlackChannels s.doc _)).lookup v = _
    rw [getSlackChannels_setSlackChannels]
    exact lookup_setEntry_self _ _ _

/-- C10 witness: the concrete `acme-corp` read-back satisfies the
derivation equations. -/
theorem c10_read_back_derivation_witness :
    (validateTenantId "acme-corp" = .ok "acme-corp") ∧
    ((getSlackChannels stateWithAcme.doc).lookup "acme-corp" = some acmeChannel) ∧
    ((getTenant noFaults "acme-corp" stateWithAcme).1 =
      .ok (channelToTenant "acme-corp" acmeChannel)) ∧
    (channelToTenant "acme-corp" acmeChannel = channelToTenant "acme-corp" acmeChannel ∧
      (channelToTenant "acme-corp" acmeChannel).id = "acme-corp") ∧
    ((channelToTenant "acme-corp" acmeChannel).channelName = "#client-" ++ "acme-corp") :=
  ⟨rfl, rfl, rfl,
   c10_read_back_derivation.2.2.2.2.2.2.1 noFaults stateWithAcme "acme-corp" "acme-corp"
     acmeChannel (channelToTenant "acme-corp" acmeChannel) rfl rfl rfl,
   c10_read_back_derivation.1 "acme-corp" acmeChannel⟩

/-! ## Claim C9: deepMerge -/

/-- Is this value a plain (non-array) object — the shape on which
`deepMerge` recurses? -/
def isObj : JVal → Bool
  | .obj _ => true
  | _ => false

/-- The value `deepMerge` assigns at a non-reserved key `k` of the patch:
recursive merge when both sides hold plain objects, the patch value
otherwise. -/
def mergedValue (target : List (String × JVal)) (k : String) (sv : JVal) : JVal :=
  match sv, target.lookup k with
  | JVal.obj sfields, some (JVal.obj tfields) => JVal.obj (deepMerge tfields sfields)
  | _, _ => sv

theorem deepMergeGo_nil (target result : List (String × JVal)) :
    deepMergeGo target result [] = result := by
  rw [deepMergeGo.eq_def]

theorem deepMergeGo_cons (target result : List (String × JVal)) (k : String) (sv : JVal)
    (rest : List (String × JVal)) :
    deepMergeGo target result ((k, sv) :: rest) =
      if (k == "__proto__" || k == "constructor" || k == "prototype") = true then
        deepMergeGo target result rest
      else
        match sv, List.lookup k target with
        | JVal.obj sfields, some (JVal.obj tfields) =>
          deepMergeGo target (setEntry result k (JVal.obj (deepMergeGo tfields tfields sfields))) rest
        | _, _ => deepMergeGo target (setEntry result k sv) rest := by
  rw [deepMergeGo.eq_def]

theorem not_mem_keys_of_lookup_none {β : Type} (k : String) (m : List (String × β))
    (h : m.lookup k = none) : k ∉ m.map Prod.fst := by
  intro hmem
  obtain ⟨p, hp, hk⟩ := List.mem_map.mp hmem
  have := List.lookup_eq_none_iff.mp h p hp
  rw [hk] at this
  simp at this

theorem deepMergeGo_lookup_not_mem (k : String) :
    ∀ (rest : List (String × JVal)) (target result : List (String × JVal)),
      k ∉ rest.map Prod.fst →
      (deepMergeGo target result rest).lookup k = result.lookup k := by
  intro rest
  induction rest with
  | nil =>
    intro target result _
    rw [deepMergeGo_nil]
  | cons hd tl ih =>
    intro target result h
    obtain ⟨k0, sv⟩ := hd
    simp only [List.map_cons, List.mem_cons] at h
    push_neg at h
    obtain ⟨hk0, htl⟩ := h
    rw [deepMergeGo_cons]
    split_ifs with hres
    · exact ih target result htl
    · split
      next sfields tfields _ =>
        rw [ih target _ htl]
        exact lookup_setEntry_ne _ _ _ _ hk0
      next =>
        rw [ih target _ htl]
        exact lookup_setEntry_ne _ _ _ _ hk0

theorem deepMergeGo_lookup_reserved (k : String)
    (hres : k = "__proto__" ∨ k = "constructor" ∨ k = "prototype") :
    ∀ (rest : List (String × JVal)) (target result : List (String × JVal)),
      (deepMergeGo target result rest).lookup k = result.lookup k := by
  intro rest
  induction rest with
  | nil =>
    intro target result
    rw [deepMergeGo_nil]
  | cons hd tl ih =>
    intro target result
    obtain ⟨k0, sv⟩ := hd
    rw [deepMergeGo_cons]
    split_ifs with h0
    · exact ih target result
    · have hk : k ≠ k0 := by
        rintro rfl
        apply h0
        rcases hres with h | h | h <;> simp [h]
      split
      next sfields tfields _ =>
        rw [ih target _]
        exact lookup_setEntry_ne _ _ _ _ hk
      next =>
        rw [ih target _]
        exact lookup_setEntry_ne _ _ _ _ hk

theorem deepMergeGo_lookup_found (k : String) (sv : JVal) :
    ∀ (rest : List (String × JVal)) (target result : List (String × JVal)),
      (rest.map Prod.fst).Nodup →
      rest.lookup k = some sv →
      ¬(k = "__proto__" ∨ k = "constructor" ∨ k = "prototype") →
      (deepMergeGo target result rest).lookup k = some (mergedValue target k sv) := by
  intro rest
  induction rest with
  | nil =>
    intro target result _ hfound _
    simp at hfound
  | cons hd tl ih =>
    intro target result hnd hfound hres
    obtain ⟨k0, sv0⟩ := hd
    rw [lookup_cons_ite] at hfound
    simp only [List.map_cons, List.nodup_cons] at hnd
    obtain ⟨hk0tl, hndtl⟩ := hnd
    by_cases hk : k = k0
    · subst hk
      rw [if_pos rfl] at hfound
      have heq : sv = sv0 := (Option.some.injEq .. ▸ hfound).symm
      subst heq
      clear hfound ih
      rw [deepMergeGo_cons]
      split_ifs with h0
      · simp only [Bool.or_eq_true, beq_iff_eq] at h0
        exact (hres (by tauto)).elim
      · have hnotmem : k ∉ tl.map Prod.fst := hk0tl
        cases sv with
        | obj sfields =>
          cases htv : target.lookup k with
          | none =>
            show ((deepMergeGo target (setEntry result k (JVal.obj sfields)) tl).lookup k) = _
            rw [deepMergeGo_lookup_not_mem k tl target _ hnotmem, lookup_setEntry_self]
            simp [mergedValue, htv]
          | some tv =>
            cases tv with
            | obj tfields =>
              show ((deepMergeGo target
                (setEntry result k (JVal.obj (deepMergeGo tfields tfields sfields))) tl).lookup k) = _
              rw [deepMergeGo_lookup_not_mem k tl target _ hnotmem, lookup_setEntry_self]
              simp [mergedValue, htv, deepMerge]
            | null =>
              show ((deepMergeGo target (setEntry result k (JVal.obj sfields)) tl).lookup k) = _
              rw [deepMergeGo_lookup_not_mem k tl target _ hnotmem, lookup_setEntry_self]
              simp [mergedValue, htv]
            | bool b =>
              show ((deepMergeGo target (setEntry result k (JVal.obj sfields)) tl).lookup k) = _
              rw [deepMergeGo_lookup_not_mem k tl target _ hnotmem, lookup_setEntry_self]
              simp [mergedValue, htv]
            | num n =>
              show ((deepMergeGo target (setEntry result k (JVal.obj sfields)) tl).lookup k) = _
              rw [deepMergeGo_lookup_not_mem k tl target _ hnotmem, lookup_setEntry_self]
              simp [mergedValue, htv]
            | str s2 =>
              show ((deepMergeGo target (setEntry result k (JVal.obj sfields)) tl).lookup k) = _
              rw [deepMergeGo_lookup_not_mem k tl target _ hnotmem, lookup_setEntry_self]
              simp [mergedValue, htv]
            | arr es =>
              show ((deepMergeGo target (setEntry result k (JVal.obj sfields)) tl).lookup k) = _
              rw [deepMergeGo_lookup_not_mem k tl target _ hnotmem, lookup_setEntry_self]
              simp [mergedValue, htv]
        | null =>
          show ((deepMergeGo target (setEntry result k JVal.null) tl).lookup k) = _
          rw [deepMergeGo_lookup_not_mem k tl target _ hnotmem, lookup_setEntry_self]
          rfl
        | bool b =>
          show ((deepMergeGo target (setEntry result k (JVal.bool b)) tl).lookup k) = _
          rw [deepMergeGo_lookup_not_mem k tl target _ hnotmem, lookup_setEntry_self]
          rfl
        | num n =>
          show ((deepMergeGo target (setEntry result k (JVal.num n)) tl).lookup k) = _
          rw [deepMergeGo_lookup_not_mem k tl target _ hnotmem, lookup_setEntry_self]
          rfl
        | str s2 =>
          show ((deepMergeGo target (setEntry result k (JVal.str s2)) tl).lookup k) = _
          rw [deepMergeGo_lookup_not_mem k tl target _ hnotmem, lookup_setEntry_self]
          rfl
        | arr es =>
          show ((deepMergeGo target (setEntry result k (JVal.arr es)) tl).lookup k) = _
          rw [deepMergeGo_lookup_not_mem k tl target _ hnotmem, lookup_setEntry_self]
          rfl
    · rw [if_neg hk] at hfound
      rw [deepMergeGo_cons]
      split_ifs with h0
      · exact ih target result hndtl hfound hres
      · split
        next sfields tfields _ =>
          exact ih target _ hndtl hfound hres
        next =>
          exact ih target _ hndtl hfound hres

/-- C9: lookup-level characterization of `deepMerge` (for JavaScript-style
objects, i.e. maps with no duplicate keys): reserved prototype-pollution
keys of the patch are skipped (the base value survives); keys absent from
the patch keep the base value; at a key where both sides hold a plain
object the merge recurses; at every other patch key the patch value
replaces the base value — arrays wholesale, never spliced. -/
theorem c9_deep_merge_characterization :
    ∀ (target source : List (String × JVal)) (k : String),
      (source.map Prod.fst).Nodup →
      ((k = "__proto__" ∨ k = "constructor" ∨ k = "prototype") →
        (deepMerge target source).lookup k = target.lookup k) ∧
      (source.lookup k = none →
        (deepMerge target source).lookup k = target.lookup k) ∧
      (∀ sfields tfields, ¬(k = "__proto__" ∨ k = "constructor" ∨ k = "prototype") →
        source.lookup k = some (JVal.obj sfields) →
        target.lookup k = some (JVal.obj tfields) →
        (deepMerge target source).lookup k = some (JVal.obj (deepMerge tfields sfields))) ∧
      (∀ sv, ¬(k = "__proto__" ∨ k = "constructor" ∨ k = "prototype") →
        source.lookup k = some sv →
        (isObj sv && (target.lookup k).elim false isObj) = false →
        (deepMerge target source).lookup k = some sv) := by
  intro target source k hnd
  refine ⟨?_, ?_, ?_, ?_⟩
  · intro hres
    exact deepMergeGo_lookup_reserved k hres source target target
  · intro hnone
    exact deepMergeGo_lookup_not_mem k source target target
      (not_mem_keys_of_lookup_none k source hnone)
  · intro sfields tfields hres hsrc htgt
    show (deepMergeGo target target source).lookup k = _
    rw [deepMergeGo_lookup_found k _ source target target hnd hsrc hres]
    simp [mergedValue, htgt]
  · intro sv hres hsrc hcond
    show (deepMergeGo target target source).lookup k = _
    rw [deepMergeGo_lookup_found k sv source target target hnd hsrc hres]
    cases sv with
    | obj sfields =>
      simp only [isObj, Bool.true_and] at hcond
      cases htv : target.lookup k with
      | none => simp [mergedValue, htv]
      | some tv =>
        rw [htv] at hcond
        simp only [Option.elim] at hcond
        cases tv with
        | obj tfields => simp [isObj] at hcond
        | null => simp [mergedValue, htv]
        | bool b => simp [mergedValue, htv]
        | num n => simp [mergedValue, htv]
        | str s2 => simp [mergedValue, htv]
        | arr es => simp [mergedValue, htv]
    | null => rfl
    | bool b => rfl
    | num n => rfl
    | str s2 => rfl
    | arr es => rfl

/-- Example base document for the merge. -/
def mergeTargetEx : List (String × JVal) :=
  [("a", .num 1), ("b", .obj [("x", .num 1), ("y", .num 2)]), ("keep", .str "v")]

/-- Example patch document: a recursive object at `b`, a reserved key, an
array replacement at `c`, and an array over a scalar at `a`. -/
def mergeSourceEx : List (String × JVal) :=
  [("b", .obj [("y", .num 3), ("z", .num 4)]), ("__proto__", .obj [("evil", .num 666)]),
   ("c", .arr [.num 9]), ("a", .arr [.num 5])]

/-- C9 witness: each clause of the characterization at a concrete key of
a concrete merge. -/
theorem c9_deep_merge_characterization_witness :
    ((mergeSourceEx.map Prod.fst).Nodup) ∧
    ((deepMerge mergeTargetEx mergeSourceEx).lookup "__proto__"
      = mergeTargetEx.lookup "__proto__") ∧
    (mergeSourceEx.lookup "keep" = none) ∧
    ((deepMerge mergeTargetEx mergeSourceEx).lookup "keep" = mergeTargetEx.lookup "keep") ∧
    (mergeSourceEx.lookup "b" = some (JVal.obj [("y", .num 3), ("z", .num 4)])) ∧
    (mergeTargetEx.lookup "b" = some (JVal.obj [("x", .num 1), ("y", .num 2)])) ∧
    ((deepMerge mergeTargetEx mergeSourceEx).lookup "b"
      = some (JVal.obj (deepMerge [("x", .num 1), ("y", .num 2)] [("y", .num 3), ("z", .num 4)]))) ∧
    (mergeSourceEx.lookup "c" = some (JVal.arr [.num 9])) ∧
    ((deepMerge mergeTargetEx mergeSourceEx).lookup "c" = some (JVal.arr [.num 9])) ∧
    (mergeSourceEx.lookup "a" = some (JVal.arr [.num 5])) ∧
    ((deepMerge mergeTargetEx mergeSourceEx).lookup "a" = some (JVal.arr [.num 5])) :=
  ⟨by decide,
   (c9_deep_merge_characterization mergeTargetEx mergeSourceEx "__proto__" (by decide)).1
     (Or.inl rfl),
   rfl,
   (c9_deep_merge_characterization mergeTargetEx mergeSourceEx "keep" (by decide)).2.1 rfl,
   rfl, rfl,
   (c9_deep_merge_characterization mergeTargetEx mergeSourceEx "b" (by decide)).2.2.1
     [("y", .num 3), ("z", .num 4)] [("x", .num 1), ("y", .num 2)] (by decide) rfl rfl,
   rfl,
   (c9_deep_merge_characterization mergeTargetEx mergeSourceEx "c" (by decide)).2.2.2
     (JVal.arr [.num 9]) (by decide) rfl rfl,
   rfl,
   (c9_deep_merge_characterization mergeTargetEx mergeSourceEx "a" (by decide)).2.2.2
     (JVal.arr [.num 5]) (by decide) rfl rfl⟩
